import Mathlib

/-!
Verification of the resilience/observability layer of the rent-redi
tenant-management service: the geolocation client (`weatherService.js`),
its retry configuration, the circuit breaker wrapper
(`weatherCircuitBreaker.js`), the CRUD create handler and health handler
(`server.js`), and the RED-metrics telemetry middleware
(`middleware/telemetry.js`), shallowly embedded in Lean.
-/

/-! ## Data model (§3): GeoResult and the classified error taxonomy -/

deriving instance DecidableEq for Except

/-- The `coord` object of an OpenWeather response. -/
structure Coord where
  lat : ℚ
  lon : ℚ
deriving DecidableEq

/-- The fields of the provider response body used by `getWeatherData`:
`{ coord, timezone, name }`. -/
structure WeatherResponse where
  coord : Coord
  timezone : ℤ
  name : String
deriving DecidableEq

/-- The value returned by a successful `getWeatherData` call
(`{ lat, lon, timezone, locationName }`). -/
structure GeoResult where
  lat : ℚ
  lon : ℚ
  timezone : ℤ
  locationName : String
deriving DecidableEq

/-- The error taxonomy of §3/§7 of the spec.  The source throws plain
`Error` objects; the tag records which `throw` site of
`weatherService.js` produced the error, the `message` field is the
verbatim message string of that site. -/
inductive ErrClass
  | invalidInput
  | notFound
  | unauthorized
  | rateLimited
  | unreachable
  | unknown
deriving DecidableEq

/-- A classified error: taxonomy tag plus the human-readable message the
source attaches to it. -/
structure ClassifiedError where
  cls : ErrClass
  message : String
deriving DecidableEq

/-- Outcome of the single `axios.get` call inside `getWeatherData`:
a 2xx response with a body, an error carrying a response
(`error.response` set, with its HTTP status), an error with a request
but no response (`error.request` set: timeout / connection failure), or
any other failure (request never made). -/
inductive AxiosResult
  | ok (data : WeatherResponse)
  | httpError (status : ℕ)
  | requestError
  | otherError
deriving DecidableEq

/-! ## GeoClient: `getWeatherData` (weatherService.js) -/

/-- The validation regex of `weatherService.js`:
`/^\d{5}$/.test(zipCode)` — zip is exactly 5 ASCII digits. -/
def isValidZip (zip : String) : Bool :=
  zip.length == 5 && zip.toList.all Char.isDigit

/-- The error classification of the `catch` block of `getWeatherData`:
`error.response` present selects on status (404, 401, 403, 429);
any other status falls through to the final `Unknown` throw. -/
def classifyStatus (zipCode : String) (status : ℕ) : ClassifiedError :=
  if status = 404 then ⟨.notFound, "ZIP code " ++ zipCode ++ " not found."⟩
  else if status = 401 then ⟨.unauthorized, "Weather API Key is invalid."⟩
  else if status = 403 then
    ⟨.unauthorized, "Weather API access forbidden. Check API key permissions."⟩
  else if status = 429 then ⟨.rateLimited, "Weather API rate limit exceeded."⟩
  else ⟨.unknown, "An internal error occurred while fetching location data."⟩

/-- `getWeatherData(zipCode)` of `weatherService.js`.  The outcome of
the network call is passed in as `net`; the second component of the
result counts how many network calls were issued (0 when validation
fails fast, 1 otherwise). -/
def getWeatherData (zipCode : String) (net : AxiosResult) :
    Except ClassifiedError GeoResult × ℕ :=
  if !isValidZip zipCode then
    (.error ⟨.invalidInput, "Invalid ZIP code format. Expected 5 digits."⟩, 0)
  else
    match net with
    | .ok d => (.ok ⟨d.coord.lat, d.coord.lon, d.timezone, d.name⟩, 1)
    | .httpError status => (.error (classifyStatus zipCode status), 1)
    | .requestError =>
        (.error ⟨.unreachable,
          "Weather service is currently unreachable. Please try again later."⟩, 1)
    | .otherError =>
        (.error ⟨.unknown,
          "An internal error occurred while fetching location data."⟩, 1)

/-! ## RetryDecorator: the axios-retry configuration of weatherService.js

`axiosRetry(axios, { retries: 3, retryDelay: axiosRetry.exponentialDelay, ... })`
installs an interceptor around the single `axios.get`: after a failed
attempt it retries while the retry budget (`retries: 3`, i.e. up to 3
retries after the initial attempt) is not exhausted and the failure is
retryable; the source comment documents the conditions and delays as
"network glitches (5xx errors or timeouts)" and "200ms, 400ms, 800ms...". -/

/-- The retry budget configured in `weatherService.js`: `retries: 3`. -/
def configuredRetries : ℕ := 3

/-- Which attempt outcomes trigger a retry, per the configuration
comment of `weatherService.js` ("network glitches (5xx errors or
timeouts)"): request-level failures with no response, and 5xx
responses; never a 4xx response, never a success. -/
def isRetryable : AxiosResult → Bool
  | .requestError => true
  | .httpError status => 500 ≤ status && status ≤ 599
  | _ => false

/-- The backoff delay (ms) before retry number `retryCount`
(1 for the first retry), per the source comment
"200ms, 400ms, 800ms...": `exponentialDelay` doubles from 200ms. -/
def exponentialDelay (retryCount : ℕ) : ℕ := 2 ^ retryCount * 100

/-- The retry loop installed by `axiosRetry` around `axios.get`.
`mock i` is the outcome of attempt `i` (0-based); `attempt` is the
index of the attempt about to be made and `retriesLeft` the remaining
retry budget.  Returns (number of attempts made, final outcome, list of
backoff delays applied between consecutive attempts). -/
def runRetriesAux (mock : ℕ → AxiosResult) :
    ℕ → ℕ → ℕ × AxiosResult × List ℕ
  | attempt, 0 => (1, mock attempt, [])
  | attempt, retriesLeft + 1 =>
      let o := mock attempt
      if isRetryable o then
        let r := runRetriesAux mock (attempt + 1) retriesLeft
        (r.1 + 1, r.2.1, exponentialDelay (attempt + 1) :: r.2.2)
      else (1, o, [])

/-- A full retried call of `axios.get` as configured in
`weatherService.js`: initial attempt plus up to `retries: 3` retries. -/
def runRetries (mock : ℕ → AxiosResult) : ℕ × AxiosResult × List ℕ :=
  runRetriesAux mock 0 configuredRetries

/-! ## CircuitBreaker (weatherCircuitBreaker.js)

The breaker is `new CircuitBreaker(getWeatherData, options)` from the
opossum library; opossum itself is a dependency whose sources are not
part of this repository, so its state machine is modelled from §4.2 of
the spec.  The configuration object and the fallback function are taken
verbatim from `weatherCircuitBreaker.js`. -/

/-- The `options` object of `weatherCircuitBreaker.js`. -/
structure BreakerOptions where
  timeout : ℕ
  errorThresholdPercentage : ℕ
  resetTimeout : ℕ
deriving DecidableEq

/-- `{ timeout: 5000, errorThresholdPercentage: 50, resetTimeout: 30000 }`. -/
def breakerOptions : BreakerOptions := ⟨5000, 50, 30000⟩

/-- The three breaker states of §3/§4.2. -/
inductive BreakerMode
  | closed
  | opened
  | halfOpen
deriving DecidableEq

/-- Breaker state: the current mode, the rolling window of observed
outcomes (failure count and total count), and the milliseconds elapsed
since the breaker last opened. -/
structure BreakerSt where
  mode : BreakerMode
  failures : ℕ
  total : ℕ
  sinceOpened : ℕ
deriving DecidableEq

/-- Initial breaker state: CLOSED with empty statistics (§4.2). -/
def initBreaker : BreakerSt := ⟨.closed, 0, 0, 0⟩

/-- The message thrown by the fallback registered in
`weatherCircuitBreaker.js`. -/
def fallbackMessage : String :=
  "Location services are currently down. We saved your name, but coordinates will be updated later."

/-- An error as received by a caller of `breaker.fire`: either a
classified error propagated from the wrapped lookup, or the
service-degraded error thrown by the fallback. -/
inductive FireError
  | classified (e : ClassifiedError)
  | degraded (message : String)
deriving DecidableEq

/-- The `message` property of a `FireError`, as read by
`err.message` in the route handlers. -/
def FireError.messageOf : FireError → String
  | .classified e => e.message
  | .degraded m => m

/-- What one `breaker.fire(zip)` call produced: whether the wrapped
lookup was invoked at all, and the result the caller receives. -/
structure CallResult where
  invokedUnderlying : Bool
  result : Except FireError GeoResult
deriving DecidableEq

/-- Modelled from the spec: the CLOSED-state trip condition of §4.2 —
"if the failure percentage within the window reaches or exceeds a
configured threshold (default 50%) and a minimum volume has been
observed, transition to OPEN". -/
def shouldTrip (opts : BreakerOptions) (volumeThreshold failures total : ℕ) : Bool :=
  volumeThreshold ≤ total && opts.errorThresholdPercentage * total ≤ 100 * failures

/-- Modelled from the spec: one `breaker.fire` call of the opossum
breaker, per §4.2/§7 — CLOSED and HALF_OPEN calls pass through to the
wrapped lookup and propagate its outcome unchanged (a classified error
is never rewritten); an OPEN call short-circuits without invoking the
lookup and runs the registered fallback, which throws the
service-degraded error.  `underlying` is the outcome the wrapped
(already-retried) lookup would produce. -/
def breakerCall (opts : BreakerOptions) (volumeThreshold : ℕ) (s : BreakerSt)
    (underlying : Except ClassifiedError GeoResult) : BreakerSt × CallResult :=
  match s.mode with
  | .opened => (s, ⟨false, .error (.degraded fallbackMessage)⟩)
  | .halfOpen =>
      match underlying with
      | .ok g => (⟨.closed, 0, 0, 0⟩, ⟨true, .ok g⟩)
      | .error e => (⟨.opened, s.failures, s.total, 0⟩, ⟨true, .error (.classified e)⟩)
  | .closed =>
      match underlying with
      | .ok g => (⟨.closed, s.failures, s.total + 1, s.sinceOpened⟩, ⟨true, .ok g⟩)
      | .error e =>
          let s' : BreakerSt :=
            if shouldTrip opts volumeThreshold (s.failures + 1) (s.total + 1) then
              ⟨.opened, s.failures + 1, s.total + 1, 0⟩
            else ⟨.closed, s.failures + 1, s.total + 1, s.sinceOpened⟩
          (s', ⟨true, .error (.classified e)⟩)

/-- Modelled from the spec: passage of `ms` milliseconds, per §4.2 —
"after a configured reset timeout (default 30s) elapses, transition to
HALF_OPEN"; time only matters to an OPEN breaker. -/
def breakerTick (opts : BreakerOptions) (s : BreakerSt) (ms : ℕ) : BreakerSt :=
  match s.mode with
  | .opened =>
      if opts.resetTimeout ≤ s.sinceOpened + ms then
        ⟨.halfOpen, s.failures, s.total, s.sinceOpened + ms⟩
      else ⟨.opened, s.failures, s.total, s.sinceOpened + ms⟩
  | _ => s

/-! ## server.js route handlers -/

/-- The `name`/`zip` pair produced by `UserSchema.parse`. -/
structure UserInput where
  name : String
  zip : String
deriving DecidableEq

/-- A persisted user record, as assembled by the POST /users handler
from the validated input and the breaker result. -/
structure UserRecord where
  name : String
  zip : String
  latitude : ℚ
  longitude : ℚ
  timezone : ℤ
  locationName : String
deriving DecidableEq

/-- Response body of the POST /users handler. -/
inductive CreateBody
  | badRequest (zodIssues : List String)
  | serverError (error : String)
  | created (user : UserRecord)
deriving DecidableEq

/-- The POST /users handler of `server.js`: a Zod validation failure
yields 400 with the issues; any other thrown error yields 500 with
`{ error: err.message }`; on success the user assembled from the
breaker result is persisted and returned with 201.  `validated` is the
outcome of `UserSchema.parse(req.body)` and `fireResult` the outcome of
`await weatherBreaker.fire(zip)`. -/
def createUserHandler (validated : Except (List String) UserInput)
    (fireResult : Except FireError GeoResult) : ℕ × CreateBody :=
  match validated with
  | .error issues => (400, .badRequest issues)
  | .ok input =>
      match fireResult with
      | .error err => (500, .serverError err.messageOf)
      | .ok geo =>
          (201, .created ⟨input.name, input.zip, geo.lat, geo.lon,
            geo.timezone, geo.locationName⟩)

/-- The health response body of `server.js`: the `health` object
without its timestamp/uptime metadata (runtime-clock values outside the
model). -/
structure HealthBody where
  status : String
  backend : Bool
  database : Bool
  weatherAPI : Bool
  error : Option String
deriving DecidableEq

/-- The GET /health handler of `server.js`.  `probe` is the outcome of
the Firebase connectivity probe (`snapshot.val() === true`, or the
message of the error it threw); `breakerOpened` is `weatherBreaker.opened`,
i.e. whether the breaker is in OPEN state.  The handler starts from
`{ status: "healthy", checks: { backend: true, database: false,
weatherAPI: false } }`; if the probe throws, the `catch` block reports
the partially-built object with status "unhealthy" and HTTP 503. -/
def healthHandler (probe : Except String Bool) (breakerOpened : Bool) :
    ℕ × HealthBody :=
  match probe with
  | .error msg => (503, ⟨"unhealthy", true, false, false, some msg⟩)
  | .ok dbConnected =>
      let database := dbConnected
      let weatherAPI := !breakerOpened
      let status := if !database || !weatherAPI then "degraded" else "healthy"
      (200, ⟨status, true, database, weatherAPI, none⟩)

/-! ## TelemetryCollector (middleware/telemetry.js) -/

/-- The per-endpoint sub-aggregate of `RED_METRICS.endpoints`. -/
structure EndpointData where
  count : ℕ
  errors : ℕ
  durations : List ℕ
deriving DecidableEq

/-- The `RED_METRICS` module-level object.  JS objects with string keys
preserve insertion order; they are modelled as association lists with
unique keys, new keys appended at the end. -/
structure REDMetrics where
  requestCount : ℕ
  errorCount : ℕ
  durations : List ℕ
  statusCodes : List (ℕ × ℕ)
  endpoints : List (String × EndpointData)
deriving DecidableEq

/-- The initializer of `RED_METRICS`. -/
def initialMetrics : REDMetrics := ⟨0, 0, [], [], []⟩

/-- `RED_METRICS.endpoints[endpoint]` (read). -/
def lookupEndpoint : List (String × EndpointData) → String → Option EndpointData
  | [], _ => none
  | (k, v) :: rest, key => if k = key then some v else lookupEndpoint rest key

/-- In-place update of the entry at `key`; no effect when the key is
absent (callers only use it on keys created beforehand). -/
def modifyEndpoint : List (String × EndpointData) → String →
    (EndpointData → EndpointData) → List (String × EndpointData)
  | [], _, _ => []
  | (k, v) :: rest, key, f =>
      if k = key then (k, f v) :: rest else (k, v) :: modifyEndpoint rest key f

/-- `statusCodes[code] = (statusCodes[code] || 0) + 1`. -/
def bumpStatusCode : List (ℕ × ℕ) → ℕ → List (ℕ × ℕ)
  | [], code => [(code, 1)]
  | (k, v) :: rest, code =>
      if k = code then (k, v + 1) :: rest else (k, v) :: bumpStatusCode rest code

/-- The part of `telemetryMiddleware` that runs synchronously when the
request comes in, before `next()`: increment `requestCount`, create the
endpoint entry if missing, increment its `count`. -/
def telemetryOnStart (m : REDMetrics) (endpoint : String) : REDMetrics :=
  let m1 := { m with requestCount := m.requestCount + 1 }
  let eps :=
    match lookupEndpoint m1.endpoints endpoint with
    | none => m1.endpoints ++ [(endpoint, ⟨0, 0, []⟩)]
    | some _ => m1.endpoints
  { m1 with
    endpoints := modifyEndpoint eps endpoint fun d => { d with count := d.count + 1 } }

/-- The `res.on("finish", ...)` callback of `telemetryMiddleware`:
append the elapsed `duration` to the global and per-endpoint latency
lists, increment the global and per-endpoint error counters when
`statusCode >= 400`, bump the status-code histogram, and warn when
`duration > 1000` (the returned Bool is the slow-request warning). -/
def telemetryOnFinish (m : REDMetrics) (endpoint : String)
    (statusCode duration : ℕ) : REDMetrics × Bool :=
  let m1 := { m with
    durations := m.durations ++ [duration],
    endpoints := modifyEndpoint m.endpoints endpoint fun d =>
      { d with durations := d.durations ++ [duration] } }
  let m2 :=
    if 400 ≤ statusCode then
      { m1 with
        errorCount := m1.errorCount + 1,
        endpoints := modifyEndpoint m1.endpoints endpoint fun d =>
          { d with errors := d.errors + 1 } }
    else m1
  let m3 := { m2 with statusCodes := bumpStatusCode m2.statusCodes statusCode }
  (m3, decide (1000 < duration))

/-- `[...arr].sort((a, b) => a - b)`: the spread copies the array, the
sort mutates only the copy.  Returns (the sorted copy, the state of
`arr` after the statement). -/
def jsSpreadSort (arr : List ℕ) : List ℕ × List ℕ :=
  (arr.mergeSort (· ≤ ·), arr)

/-- `calculatePercentile(arr, percentile)` of `telemetry.js`.  Returns
(the value — `none` models the `undefined` a JS out-of-range index
would yield, which never happens for the percentiles the code uses —
and the state of `arr` after the call). -/
def calculatePercentile (arr : List ℕ) (percentile : ℕ) : Option ℕ × List ℕ :=
  if arr.length = 0 then (some 0, arr)
  else
    let sp := jsSpreadSort arr
    let sorted := sp.1
    let index : ℤ := ⌈((percentile : ℚ) / 100) * (sorted.length : ℚ)⌉ - 1
    ((if index < 0 then none else sorted[index.toNat]?), sp.2)

/-- `calculateAverage(arr)` of `telemetry.js`. -/
def calculateAverage (arr : List ℕ) : ℚ :=
  if arr.length = 0 then 0 else (arr.sum : ℚ) / (arr.length : ℚ)

/-- JS `Number.prototype.toFixed(2)` on the exact (rational) values the
snapshot formats. -/
def toFixed2 (q : ℚ) : String :=
  let n : ℤ := round (q * 100)
  let frac := (n % 100).toNat
  toString (n / 100) ++ "." ++ (if frac < 10 then "0" else "") ++ toString frac

/-- One entry of the `endpoints` breakdown built by `getMetrics`. -/
structure EndpointStats where
  count : ℕ
  errors : ℕ
  errorRate : String
  avgDuration : String
  p95Duration : String
deriving DecidableEq

/-- The JSON body sent by `getMetrics`, minus the `timestamp`/`uptime`
metadata and the constant `ratePerMinute: "N/A"` (runtime-clock values
outside the model). -/
structure MetricsBody where
  rateTotal : ℕ
  errorsTotal : ℕ
  errorRate : String
  avg : String
  p50 : String
  p95 : String
  p99 : String
  statusCodes : List (ℕ × ℕ)
  endpoints : List (String × EndpointStats)
deriving DecidableEq

/-- The per-endpoint loop of `getMetrics`, with the state of each
endpoint's duration list threaded through its `calculatePercentile`
call.  Returns (the `endpointMetrics` object, the state of
`RED_METRICS.endpoints` after the loop). -/
def endpointStatsSt : List (String × EndpointData) →
    List (String × EndpointStats) × List (String × EndpointData)
  | [] => ([], [])
  | (k, d) :: rest =>
      let c := calculatePercentile d.durations 95
      let stats : EndpointStats :=
        ⟨d.count, d.errors,
          (if 0 < d.count then
            toFixed2 ((d.errors : ℚ) / (d.count : ℚ) * 100) ++ "%"
          else "0%"),
          toFixed2 (calculateAverage d.durations) ++ "ms",
          toFixed2 ((c.1.getD 0 : ℚ)) ++ "ms"⟩
      let r := endpointStatsSt rest
      ((k, stats) :: r.1, (k, { d with durations := c.2 }) :: r.2)

/-- `getMetrics` of `telemetry.js` as a state-passing function: the
response body it sends, paired with the state of `RED_METRICS` after
the call (every latency list threaded through the sorts it undergoes). -/
def getMetricsSt (m : REDMetrics) : MetricsBody × REDMetrics :=
  let avgDuration := calculateAverage m.durations
  let c50 := calculatePercentile m.durations 50
  let c95 := calculatePercentile c50.2 95
  let c99 := calculatePercentile c95.2 99
  let errorRate : String :=
    if 0 < m.requestCount then
      toFixed2 ((m.errorCount : ℚ) / (m.requestCount : ℚ) * 100) ++ "%"
    else "0%"
  let eps := endpointStatsSt m.endpoints
  (⟨m.requestCount, m.errorCount, errorRate,
    toFixed2 avgDuration ++ "ms",
    toFixed2 ((c50.1.getD 0 : ℚ)) ++ "ms",
    toFixed2 ((c95.1.getD 0 : ℚ)) ++ "ms",
    toFixed2 ((c99.1.getD 0 : ℚ)) ++ "ms",
    m.statusCodes, eps.1⟩,
   { m with durations := c99.2, endpoints := eps.2 })

/-- `resetMetrics` of `telemetry.js`: every field of `RED_METRICS` is
set back to its initializer value. -/
def resetMetrics (_m : REDMetrics) : REDMetrics :=
  { requestCount := 0, errorCount := 0, durations := [],
    statusCodes := [], endpoints := [] }

/-- The percentile computation as the spec/claim words it: element at
index `ceil((percentile/100) * length) - 1` of the ascending-sorted
list, the index clamped to `[0, length - 1]`; 0 for the empty list.
Stated only to be compared with `calculatePercentile`. -/
def specPercentile (arr : List ℕ) (percentile : ℕ) : ℕ :=
  if arr.length = 0 then 0
  else
    let sorted := arr.mergeSort (· ≤ ·)
    let index : ℤ := ⌈((percentile : ℚ) / 100) * (arr.length : ℚ)⌉ - 1
    let clamped : ℤ := min (max index 0) ((arr.length : ℤ) - 1)
    sorted.getD clamped.toNat 0


/-! ## Helper lemmas -/

/-- `calculatePercentile` leaves its argument array untouched: the sort
operates on the spread copy. -/
theorem calculatePercentile_state (arr : List ℕ) (p : ℕ) :
    (calculatePercentile arr p).2 = arr := by
  unfold calculatePercentile jsSpreadSort
  split <;> rfl

/-- The per-endpoint loop of `getMetrics` leaves the endpoint map
untouched. -/
theorem endpointStatsSt_state (l : List (String × EndpointData)) :
    (endpointStatsSt l).2 = l := by
  induction l with
  | nil => rfl
  | cons kd rest ih =>
      obtain ⟨k, d⟩ := kd
      simp only [endpointStatsSt, calculatePercentile_state, ih]

/-- Reading an endpoint after an in-place update. -/
theorem lookupEndpoint_modifyEndpoint (l : List (String × EndpointData))
    (key : String) (f : EndpointData → EndpointData) :
    lookupEndpoint (modifyEndpoint l key f) key =
      (lookupEndpoint l key).map f := by
  induction l with
  | nil => rfl
  | cons kv rest ih =>
      obtain ⟨k, v⟩ := kv
      by_cases hk : k = key <;> simp [lookupEndpoint, modifyEndpoint, hk, ih]

/-- Reading a freshly appended endpoint. -/
theorem lookupEndpoint_append (l : List (String × EndpointData))
    (key : String) (v : EndpointData) (h : lookupEndpoint l key = none) :
    lookupEndpoint (l ++ [(key, v)]) key = some v := by
  induction l with
  | nil => simp [lookupEndpoint]
  | cons kv rest ih =>
      obtain ⟨k, w⟩ := kv
      by_cases hk : k = key
      · simp [lookupEndpoint, hk] at h
      · simp [lookupEndpoint, hk] at h ⊢
        exact ih h

/-! ## Claim theorems -/

/-- C9: a metrics snapshot of an empty store is all zeros — zero
counts, "0.00ms" average and percentiles, "0%" error rate, empty
histogram and endpoint map (no division by zero occurs: the guarded
branches yield the literal zeros) — and `reset()` immediately followed
by `snapshot()` gives exactly the snapshot of a freshly initialized
store, because `resetMetrics` restores every field of `RED_METRICS` to
its initializer value. -/
theorem metrics_empty_snapshot_and_reset :
    (getMetricsSt initialMetrics).1 =
      ⟨0, 0, "0%", "0.00ms", "0.00ms", "0.00ms", "0.00ms", [], []⟩ ∧
    (∀ m : REDMetrics, resetMetrics m = initialMetrics) ∧
    (∀ m : REDMetrics,
      (getMetricsSt (resetMetrics m)).1 = (getMetricsSt initialMetrics).1) := by
  refine ⟨by with_unfolding_all rfl, fun m => rfl, fun m => rfl⟩

/-- C10: computing a metrics snapshot never mutates the store: the
percentile computation sorts a spread copy of each latency list, every
read leaves counters, histograms and endpoint aggregates in place, and
two consecutive snapshots with no interleaved request are identical. -/
theorem snapshot_does_not_mutate_store :
    (∀ (arr : List ℕ) (p : ℕ), (calculatePercentile arr p).2 = arr) ∧
    (∀ arr : List ℕ, (jsSpreadSort arr).2 = arr) ∧
    (∀ m : REDMetrics, (getMetricsSt m).2 = m) ∧
    (∀ m : REDMetrics,
      (getMetricsSt ((getMetricsSt m).2)).1 = (getMetricsSt m).1) := by
  have hstate : ∀ m : REDMetrics, (getMetricsSt m).2 = m := by
    intro m
    show REDMetrics.mk _ _ _ _ _ = m
    simp only [calculatePercentile_state, endpointStatsSt_state]
  refine ⟨calculatePercentile_state, fun arr => rfl, hstate, fun m => by rw [hstate]⟩

/-- C5 (counterexample): "weatherAPI is false exactly when the breaker
is OPEN" fails when the datastore probe throws — the catch block of the
GET /health handler sends the partially-built checks object, in which
`weatherAPI` is still its initial `false` even though the breaker is
not OPEN. -/
theorem health_weatherapi_iff_open_counterexample :
    ¬ (∀ (probe : Except String Bool) (breakerOpened : Bool),
        ((healthHandler probe breakerOpened).2.weatherAPI = false ↔
          breakerOpened = true)) := by
  intro h
  have := (h (.error "db down") false).mp (by decide)
  exact Bool.false_ne_true this

/-- C5 (amended): whenever the datastore probe returns, the health
snapshot has `weatherAPI = false` exactly when the breaker is OPEN,
independent of the probe's boolean result; the status is "healthy" iff
both checks are true, "degraded" (still HTTP 200) when either is
false; when the probe itself throws, the handler responds 503 with
status "unhealthy", the causing error message, and the partially-built
checks (database and weatherAPI both still false regardless of breaker
state). -/
theorem health_snapshot_statuses :
    ∀ (dbConnected breakerOpened : Bool) (msg : String),
      (healthHandler (.ok dbConnected) breakerOpened).2.weatherAPI =
        !breakerOpened ∧
      ((healthHandler (.ok dbConnected) breakerOpened).2.weatherAPI = false ↔
        breakerOpened = true) ∧
      (healthHandler (.ok dbConnected) breakerOpened).1 = 200 ∧
      ((healthHandler (.ok dbConnected) breakerOpened).2.status = "healthy" ↔
        (dbConnected = true ∧ breakerOpened = false)) ∧
      ((healthHandler (.ok dbConnected) breakerOpened).2.status = "degraded" ↔
        (dbConnected = false ∨ breakerOpened = true)) ∧
      healthHandler (.error msg) breakerOpened =
        (503, ⟨"unhealthy", true, false, false, some msg⟩) := by
  intro db op msg
  cases db <;> cases op <;>
    exact ⟨by decide, by decide, by decide, by simp [healthHandler],
      by simp [healthHandler], rfl⟩

/-- C6: `getWeatherData` classifies every failure into the fixed
taxonomy: a non-5-digit input fails fast with `InvalidInput` and zero
network calls; for valid ZIPs, HTTP 404 yields `NotFound` with the ZIP
in the message, 401 and 403 yield `Unauthorized`, 429 yields
`RateLimited`, a request with no response yields `Unreachable`, and
every other failure yields `Unknown`. -/
theorem lookup_error_classification :
    ∀ (zip : String) (net : AxiosResult) (status : ℕ),
      (isValidZip zip = false →
        getWeatherData zip net =
          (.error ⟨.invalidInput, "Invalid ZIP code format. Expected 5 digits."⟩, 0)) ∧
      (isValidZip zip = true →
        getWeatherData zip (.httpError 404) =
          (.error ⟨.notFound, "ZIP code " ++ zip ++ " not found."⟩, 1) ∧
        (∃ pre post, "ZIP code " ++ zip ++ " not found." = pre ++ zip ++ post) ∧
        getWeatherData zip (.httpError 401) =
          (.error ⟨.unauthorized, "Weather API Key is invalid."⟩, 1) ∧
        getWeatherData zip (.httpError 403) =
          (.error ⟨.unauthorized,
            "Weather API access forbidden. Check API key permissions."⟩, 1) ∧
        getWeatherData zip (.httpError 429) =
          (.error ⟨.rateLimited, "Weather API rate limit exceeded."⟩, 1) ∧
        getWeatherData zip .requestError =
          (.error ⟨.unreachable,
            "Weather service is currently unreachable. Please try again later."⟩, 1) ∧
        getWeatherData zip .otherError =
          (.error ⟨.unknown,
            "An internal error occurred while fetching location data."⟩, 1) ∧
        (status ≠ 404 → status ≠ 401 → status ≠ 403 → status ≠ 429 →
          getWeatherData zip (.httpError status) =
            (.error ⟨.unknown,
              "An internal error occurred while fetching location data."⟩, 1))) := by
  intro zip net status
  constructor
  · intro h
    simp [getWeatherData, h]
  · intro h
    have e404 : getWeatherData zip (.httpError 404) =
        (.error ⟨.notFound, "ZIP code " ++ zip ++ " not found."⟩, 1) := by
      simp [getWeatherData, h, classifyStatus]
    have e401 : getWeatherData zip (.httpError 401) =
        (.error ⟨.unauthorized, "Weather API Key is invalid."⟩, 1) := by
      simp [getWeatherData, h, classifyStatus]
    have e403 : getWeatherData zip (.httpError 403) =
        (.error ⟨.unauthorized,
          "Weather API access forbidden. Check API key permissions."⟩, 1) := by
      simp [getWeatherData, h, classifyStatus]
    have e429 : getWeatherData zip (.httpError 429) =
        (.error ⟨.rateLimited, "Weather API rate limit exceeded."⟩, 1) := by
      simp [getWeatherData, h, classifyStatus]
    have ereq : getWeatherData zip .requestError =
        (.error ⟨.unreachable,
          "Weather service is currently unreachable. Please try again later."⟩, 1) := by
      simp [getWeatherData, h]
    have eoth : getWeatherData zip .otherError =
        (.error ⟨.unknown,
          "An internal error occurred while fetching location data."⟩, 1) := by
      simp [getWeatherData, h]
    exact ⟨e404, ⟨"ZIP code ", " not found.", rfl⟩, e401, e403, e429, ereq, eoth,
      fun h404 h401 h403 h429 => by
        simp [getWeatherData, h, classifyStatus, h404, h401, h403, h429]⟩

/-- C6 (witness): the classification evaluated at concrete inputs — an
invalid ZIP "123" fails fast with zero network calls, and "00000"
with a 404 response fails `NotFound` with "00000" in the message. -/
theorem lookup_error_classification_witness :
    isValidZip "123" = false ∧
    getWeatherData "123" .requestError =
      (.error ⟨.invalidInput, "Invalid ZIP code format. Expected 5 digits."⟩, 0) ∧
    isValidZip "00000" = true ∧
    getWeatherData "00000" (.httpError 404) =
      (.error ⟨.notFound, "ZIP code 00000 not found."⟩, 1) := by
  refine ⟨by decide, ?_, by decide, ?_⟩
  · exact (lookup_error_classification "123" .requestError 0).1 (by decide)
  · exact ((lookup_error_classification "00000" .requestError 0).2 (by decide)).1

/-- C7: for a well-formed ZIP, `getWeatherData` either fails with a
classified error or returns the fully-populated `GeoResult` mapping
`coord.lat`/`coord.lon`/`timezone`/`name` of the provider response to
`lat`/`lon`/`timezone`/`locationName`; at the New-York mock it yields
exactly that record. -/
theorem lookup_total_result :
    (∀ (zip : String) (net : AxiosResult), isValidZip zip = true →
      (∃ e, (getWeatherData zip net).1 = .error e) ∨
      (∃ d, net = .ok d ∧
        (getWeatherData zip net).1 =
          .ok ⟨d.coord.lat, d.coord.lon, d.timezone, d.name⟩)) ∧
    getWeatherData "10001" (.ok ⟨⟨40.7128, -74.0060⟩, -18000, "New York"⟩) =
      (.ok ⟨40.7128, -74.0060, -18000, "New York"⟩, 1) := by
  constructor
  · intro zip net h
    cases net with
    | ok d => exact Or.inr ⟨d, rfl, by simp [getWeatherData, h]⟩
    | httpError status =>
        exact Or.inl ⟨classifyStatus zip status, by simp [getWeatherData, h]⟩
    | requestError =>
        exact Or.inl ⟨⟨.unreachable,
          "Weather service is currently unreachable. Please try again later."⟩,
          by simp [getWeatherData, h]⟩
    | otherError =>
        exact Or.inl ⟨⟨.unknown,
          "An internal error occurred while fetching location data."⟩,
          by simp [getWeatherData, h]⟩
  · rfl

/-- C7 (witness): the dichotomy evaluated at ZIP "10001" with a mock
success response. -/
theorem lookup_total_result_witness :
    isValidZip "10001" = true ∧
    ((∃ e, (getWeatherData "10001"
        (.ok ⟨⟨40.7128, -74.0060⟩, -18000, "New York"⟩)).1 = .error e) ∨
     (∃ d, (AxiosResult.ok ⟨⟨40.7128, -74.0060⟩, -18000, "New York"⟩) = .ok d ∧
       (getWeatherData "10001"
         (.ok ⟨⟨40.7128, -74.0060⟩, -18000, "New York"⟩)).1 =
           .ok ⟨d.coord.lat, d.coord.lon, d.timezone, d.name⟩)) :=
  ⟨by decide, lookup_total_result.1 "10001" _ (by decide)⟩

/-- C3 (counterexample): the claim that no request is counted in
`requestCount` before its response has finished is false — the
middleware increments `requestCount` (and the endpoint count)
synchronously when the request comes in, before the finish event. -/
theorem telemetry_counts_at_finish_counterexample :
    ¬ (∀ (m : REDMetrics) (endpoint : String),
        (telemetryOnStart m endpoint).requestCount = m.requestCount) := by
  intro h
  exact absurd (h initialMetrics "GET /users") (by decide)

/-- C3 (amended): the middleware increments the global and per-endpoint
request counters at request start; the finish callback leaves the
request counters alone and performs the rest — appends the elapsed
milliseconds to the global and per-endpoint latency lists, increments
the global and per-endpoint error counters exactly when the status is
>= 400, bumps the status-code histogram, and emits the slow-request
warning exactly when the elapsed time exceeds 1000ms. -/
theorem telemetry_counters_start_and_finish :
    ∀ (m : REDMetrics) (endpoint : String) (statusCode duration : ℕ)
      (d : EndpointData),
      (telemetryOnStart m endpoint).requestCount = m.requestCount + 1 ∧
      (lookupEndpoint m.endpoints endpoint = none →
        lookupEndpoint (telemetryOnStart m endpoint).endpoints endpoint =
          some ⟨1, 0, []⟩) ∧
      (lookupEndpoint m.endpoints endpoint = some d →
        lookupEndpoint (telemetryOnStart m endpoint).endpoints endpoint =
          some ⟨d.count + 1, d.errors, d.durations⟩) ∧
      (telemetryOnFinish m endpoint statusCode duration).1.requestCount =
        m.requestCount ∧
      (telemetryOnFinish m endpoint statusCode duration).1.durations =
        m.durations ++ [duration] ∧
      (telemetryOnFinish m endpoint statusCode duration).1.errorCount =
        m.errorCount + (if 400 ≤ statusCode then 1 else 0) ∧
      (lookupEndpoint m.endpoints endpoint = some d →
        lookupEndpoint
            (telemetryOnFinish m endpoint statusCode duration).1.endpoints
            endpoint =
          some ⟨d.count, d.errors + (if 400 ≤ statusCode then 1 else 0),
            d.durations ++ [duration]⟩) ∧
      (telemetryOnFinish m endpoint statusCode duration).1.statusCodes =
        bumpStatusCode m.statusCodes statusCode ∧
      (telemetryOnFinish m endpoint statusCode duration).2 =
        decide (1000 < duration) := by
  intro m endpoint statusCode duration d
  refine ⟨rfl, ?_, ?_, ?_, ?_, ?_, ?_, ?_, ?_⟩
  · intro h
    simp only [telemetryOnStart, h, lookupEndpoint_modifyEndpoint,
      lookupEndpoint_append _ _ _ h, Option.map_some']
  · intro h
    simp only [telemetryOnStart, h, lookupEndpoint_modifyEndpoint,
      Option.map_some']
  · simp only [telemetryOnFinish]
    split <;> rfl
  · simp only [telemetryOnFinish]
    split <;> rfl
  · simp only [telemetryOnFinish]
    split <;> simp
  · intro h
    simp only [telemetryOnFinish]
    split <;> simp [lookupEndpoint_modifyEndpoint, h]
  · simp only [telemetryOnFinish]
    split <;> rfl
  · rfl

/-- C3 (witness): the amended behavior evaluated on a store holding one
started "GET /users" request, finishing with status 500 after 1500ms. -/
theorem telemetry_counters_witness :
    (telemetryOnStart initialMetrics "GET /users").requestCount = 0 + 1 ∧
    lookupEndpoint (telemetryOnStart initialMetrics "GET /users").endpoints
      "GET /users" = some ⟨1, 0, []⟩ ∧
    lookupEndpoint
        (telemetryOnFinish (telemetryOnStart initialMetrics "GET /users")
          "GET /users" 500 1500).1.endpoints "GET /users" =
      some ⟨1, 0 + (if 400 ≤ 500 then 1 else 0), [] ++ [1500]⟩ ∧
    (telemetryOnFinish (telemetryOnStart initialMetrics "GET /users")
      "GET /users" 500 1500).2 = decide (1000 < 1500) := by
  refine ⟨(telemetry_counters_start_and_finish initialMetrics "GET /users"
      500 1500 ⟨0, 0, []⟩).1, ?_, ?_, ?_⟩
  · exact (telemetry_counters_start_and_finish initialMetrics "GET /users"
      500 1500 ⟨0, 0, []⟩).2.1 (by decide)
  · exact (telemetry_counters_start_and_finish
      (telemetryOnStart initialMetrics "GET /users") "GET /users"
      500 1500 ⟨1, 0, []⟩).2.2.2.2.2.2.1 (by decide)
  · exact (telemetry_counters_start_and_finish
      (telemetryOnStart initialMetrics "GET /users") "GET /users"
      500 1500 ⟨1, 0, []⟩).2.2.2.2.2.2.2.2

/-- C1: a breaker-wrapped lookup that fails with a classified error
(the breaker not being OPEN, so the lookup actually ran) rejects the
`fire` call with that same classified error, message unchanged, and the
POST /users handler surfaces exactly that message in its 500-response
body — the error is neither replaced nor swallowed.  (The opossum
breaker itself is modelled from §4.2/§7 of the spec; the fallback and
the handler are from the source.) -/
theorem breaker_propagates_classified_error :
    ∀ (volumeThreshold : ℕ) (s : BreakerSt) (e : ClassifiedError)
      (input : UserInput),
      s.mode ≠ .opened →
      (breakerCall breakerOptions volumeThreshold s (.error e)).2.result =
        .error (.classified e) ∧
      (FireError.classified e).messageOf = e.message ∧
      createUserHandler (.ok input)
          (breakerCall breakerOptions volumeThreshold s (.error e)).2.result =
        (500, .serverError e.message) := by
  intro vt s e input h
  have hr : (breakerCall breakerOptions vt s (.error e)).2.result =
      .error (.classified e) := by
    match hm : s.mode with
    | .opened => exact absurd hm h
    | .halfOpen => simp [breakerCall, hm]
    | .closed => simp [breakerCall, hm]
  refine ⟨hr, rfl, ?_⟩
  rw [hr]
  simp [createUserHandler, FireError.messageOf]

/-- C1 (witness): a NotFound-classified failure with the breaker in its
initial CLOSED state reaches the create handler unchanged and its
message is the 500 body. -/
theorem breaker_propagates_classified_error_witness :
    initBreaker.mode ≠ .opened ∧
    (breakerCall breakerOptions 10 initBreaker
        (.error ⟨.notFound, "ZIP code 00000 not found."⟩)).2.result =
      .error (.classified ⟨.notFound, "ZIP code 00000 not found."⟩) ∧
    createUserHandler (.ok ⟨"Jane", "00000"⟩)
        (breakerCall breakerOptions 10 initBreaker
          (.error ⟨.notFound, "ZIP code 00000 not found."⟩)).2.result =
      (500, .serverError "ZIP code 00000 not found.") := by
  refine ⟨by decide, ?_, ?_⟩
  · exact (breaker_propagates_classified_error 10 initBreaker
      ⟨.notFound, "ZIP code 00000 not found."⟩ ⟨"Jane", "00000"⟩
      (by decide)).1
  · exact (breaker_propagates_classified_error 10 initBreaker
      ⟨.notFound, "ZIP code 00000 not found."⟩ ⟨"Jane", "00000"⟩
      (by decide)).2.2

/-- C4: the breaker (modelled from §4.2 with the source's options,
50% error threshold and 30000ms reset timeout) starts CLOSED; a failing
call whose recorded outcome brings the window's failure percentage to
the threshold (with the minimum volume observed) transitions it to
OPEN; while OPEN every call short-circuits without invoking the
underlying lookup; once the reset timeout has elapsed the breaker is
HALF_OPEN and the next call is admitted as a trial, a successful trial
restores CLOSED with cleared statistics, and a CLOSED breaker invokes
the underlying lookup normally. -/
theorem breaker_state_machine :
    ∀ (vt : ℕ) (s : BreakerSt) (e : ClassifiedError) (g : GeoResult)
      (u : Except ClassifiedError GeoResult) (ms : ℕ),
      initBreaker.mode = .closed ∧
      (shouldTrip breakerOptions vt (s.failures + 1) (s.total + 1) = true ↔
        (vt ≤ s.total + 1 ∧ 50 * (s.total + 1) ≤ 100 * (s.failures + 1))) ∧
      (s.mode = .closed →
        shouldTrip breakerOptions vt (s.failures + 1) (s.total + 1) = true →
        (breakerCall breakerOptions vt s (.error e)).1.mode = .opened) ∧
      (s.mode = .opened →
        breakerCall breakerOptions vt s u =
          (s, ⟨false, .error (.degraded fallbackMessage)⟩)) ∧
      (s.mode = .opened → 30000 ≤ s.sinceOpened + ms →
        (breakerTick breakerOptions s ms).mode = .halfOpen) ∧
      (s.mode = .opened → s.sinceOpened + ms < 30000 →
        (breakerTick breakerOptions s ms).mode = .opened) ∧
      (s.mode = .halfOpen →
        breakerCall breakerOptions vt s (.ok g) =
          (⟨.closed, 0, 0, 0⟩, ⟨true, .ok g⟩)) ∧
      (s.mode = .closed →
        (breakerCall breakerOptions vt s u).2.invokedUnderlying = true) := by
  intro vt s e g u ms
  refine ⟨rfl, ?_, ?_, ?_, ?_, ?_, ?_, ?_⟩
  · simp [shouldTrip, breakerOptions]
  · intro hm htrip
    simp [breakerCall, hm, htrip]
  · intro hm
    simp [breakerCall, hm]
  · intro hm hto
    simp [breakerTick, hm, breakerOptions, hto]
  · intro hm hto
    simp [breakerTick, hm, breakerOptions, Nat.not_le.mpr hto]
  · intro hm
    simp [breakerCall, hm]
  · intro hm
    cases u with
    | ok g' => simp [breakerCall, hm]
    | error e' => simp [breakerCall, hm]

/-- C4 (witness): the state machine run concretely with volume
threshold 1 — one failure trips the initial breaker OPEN (100% ≥ 50%),
an OPEN call short-circuits, 30000ms later the breaker is HALF_OPEN,
and a successful trial call re-closes it. -/
theorem breaker_state_machine_witness :
    (breakerCall breakerOptions 1 initBreaker
        (.error ⟨.unreachable, "down"⟩)).1.mode = .opened ∧
    breakerCall breakerOptions 1 ⟨.opened, 1, 1, 0⟩
        (.error ⟨.unreachable, "down"⟩) =
      (⟨.opened, 1, 1, 0⟩, ⟨false, .error (.degraded fallbackMessage)⟩) ∧
    (breakerTick breakerOptions ⟨.opened, 1, 1, 0⟩ 30000).mode = .halfOpen ∧
    breakerCall breakerOptions 1 ⟨.halfOpen, 1, 1, 30000⟩
        (.ok ⟨40.7128, -74.0060, -18000, "New York"⟩) =
      (⟨.closed, 0, 0, 0⟩, ⟨true, .ok ⟨40.7128, -74.0060, -18000, "New York"⟩⟩) := by
  refine ⟨?_, ?_, ?_, ?_⟩
  · exact (breaker_state_machine 1 initBreaker ⟨.unreachable, "down"⟩
      ⟨0, 0, 0, ""⟩ (.error ⟨.unreachable, "down"⟩) 0).2.2.1 (by decide)
      (by decide)
  · exact (breaker_state_machine 1 ⟨.opened, 1, 1, 0⟩ ⟨.unreachable, "down"⟩
      ⟨0, 0, 0, ""⟩ (.error ⟨.unreachable, "down"⟩) 0).2.2.2.1 (by decide)
  · exact (breaker_state_machine 1 ⟨.opened, 1, 1, 0⟩ ⟨.unreachable, "down"⟩
      ⟨0, 0, 0, ""⟩ (.error ⟨.unreachable, "down"⟩) 30000).2.2.2.2.1
      (by decide) (by decide)
  · exact (breaker_state_machine 1 ⟨.halfOpen, 1, 1, 30000⟩
      ⟨.unreachable, "down"⟩ ⟨40.7128, -74.0060, -18000, "New York"⟩
      (.ok ⟨40.7128, -74.0060, -18000, "New York"⟩) 0).2.2.2.2.2.2.1 rfl

/-- Structure of the retry loop, by induction on the remaining budget:
at least one and at most `budget + 1` attempts are made, the backoff
delays are 200ms doubling per retry, and every non-final attempt ended
in a retryable outcome. -/
theorem runRetriesAux_spec (mock : ℕ → AxiosResult) :
    ∀ (k a : ℕ),
      1 ≤ (runRetriesAux mock a k).1 ∧
      (runRetriesAux mock a k).1 ≤ k + 1 ∧
      (runRetriesAux mock a k).2.2 =
        (List.range ((runRetriesAux mock a k).1 - 1)).map
          (fun i => 200 * 2 ^ (a + i)) ∧
      (∀ i, i + 1 < (runRetriesAux mock a k).1 →
        isRetryable (mock (a + i)) = true) := by
  intro k
  induction k with
  | zero =>
      intro a
      refine ⟨le_refl 1, le_refl 1, by simp [runRetriesAux], ?_⟩
      intro i hi
      simp [runRetriesAux] at hi
  | succ k ih =>
      intro a
      by_cases hc : isRetryable (mock a) = true
      · obtain ⟨h1, h2, h3, h4⟩ := ih (a + 1)
        have hstep : runRetriesAux mock a (k + 1) =
            ((runRetriesAux mock (a + 1) k).1 + 1,
              (runRetriesAux mock (a + 1) k).2.1,
              exponentialDelay (a + 1) :: (runRetriesAux mock (a + 1) k).2.2) := by
          simp [runRetriesAux, hc]
        rw [hstep]
        obtain ⟨n, hn⟩ : ∃ n, (runRetriesAux mock (a + 1) k).1 = n + 1 :=
          ⟨(runRetriesAux mock (a + 1) k).1 - 1, by omega⟩
        refine ⟨by omega, by omega, ?_, ?_⟩
        · rw [h3, hn]
          simp only [Nat.add_sub_cancel, List.range_succ_eq_map,
            List.map_cons, List.map_map]
          congr 1
          · simp [exponentialDelay]
            ring
          · apply List.map_congr_left
            intro i _
            simp only [Function.comp]
            congr 2
            omega
        · intro i hi
          cases i with
          | zero => exact hc
          | succ j =>
              have := h4 j (by omega)
              have hidx : a + 1 + j = a + (j + 1) := by omega
              rwa [hidx] at this
      · have hstep : runRetriesAux mock a (k + 1) = (1, mock a, []) := by
          simp [runRetriesAux, hc]
        rw [hstep]
        refine ⟨le_refl 1, by omega, by simp, ?_⟩
        intro i hi
        omega

/-- C2 (counterexample): "at most 3 total attempts" is false — the
source configures `retries: 3`, i.e. three retries after the initial
attempt, so a persistently unreachable provider is tried 4 times. -/
theorem retry_attempt_budget_counterexample :
    ¬ (∀ mock : ℕ → AxiosResult, (runRetries mock).1 ≤ 3) := by
  intro h
  exact absurd (h fun _ => .requestError) (by decide)

/-- C2 (amended): a retried lookup call makes at most 4 total attempts
(1 initial + 3 retries, from `retries: 3`); a retry happens only after
a retryable outcome (no response, or a 5xx response — never a 4xx, on
which the call stops immediately); the delay before the n-th retry is
200·2^(n-1) ms; and a provider that fails transiently twice then
succeeds yields the successful result after exactly 3 attempts. -/
theorem retry_at_most_four_attempts :
    ∀ mock : ℕ → AxiosResult,
      (runRetries mock).1 ≤ 4 ∧
      1 ≤ (runRetries mock).1 ∧
      (∀ i, i + 1 < (runRetries mock).1 → isRetryable (mock i) = true) ∧
      (isRetryable (mock 0) = false → (runRetries mock).1 = 1) ∧
      (runRetries mock).2.2 =
        (List.range ((runRetries mock).1 - 1)).map (fun n => 200 * 2 ^ n) ∧
      (∀ d : WeatherResponse,
        runRetries (fun i => if i < 2 then .requestError else .ok d) =
          (3, .ok d, [200, 400])) := by
  intro mock
  obtain ⟨h1, h2, h3, h4⟩ := runRetriesAux_spec mock 3 0
  refine ⟨h2, h1, ?_, ?_, ?_, ?_⟩
  · intro i hi
    simpa using h4 i hi
  · intro hc
    simp [runRetries, runRetriesAux, hc]
  · simpa using h3
  · intro d
    rfl

/-- C2 (witness): the attempt bound, retry condition, and delay list
evaluated on a mock that always fails with no response (4 attempts,
delays 200/400/800ms) and on the twice-transient mock (3 attempts). -/
theorem retry_at_most_four_attempts_witness :
    (runRetries fun _ => .requestError).1 ≤ 4 ∧
    isRetryable ((fun _ => AxiosResult.requestError) 1) = true ∧
    (runRetries fun _ => .requestError).2.2 =
      (List.range ((runRetries fun _ => .requestError).1 - 1)).map
        (fun n => 200 * 2 ^ n) ∧
    runRetries (fun i => if i < 2 then .requestError else
        .ok ⟨⟨1, 2⟩, 0, "X"⟩) = (3, .ok ⟨⟨1, 2⟩, 0, "X"⟩, [200, 400]) := by
  have h := retry_at_most_four_attempts fun _ => .requestError
  exact ⟨h.1, h.2.2.1 1 (by decide), h.2.2.2.2.1,
    (retry_at_most_four_attempts fun _ => .requestError).2.2.2.2.2 ⟨⟨1, 2⟩, 0, "X"⟩⟩

/-- For a nonzero percentile at most 100 and a nonempty list, the ceil
index of the percentile formula lies in `[1, length]`. -/
theorem percentile_ceil_bounds (len p : ℕ) (hlen : 1 ≤ len) (hp1 : 1 ≤ p)
    (hp2 : p ≤ 100) :
    1 ≤ ⌈((p : ℚ) / 100) * (len : ℚ)⌉ ∧
      ⌈((p : ℚ) / 100) * (len : ℚ)⌉ ≤ (len : ℤ) := by
  constructor
  · have hpos : (0 : ℚ) < ((p : ℚ) / 100) * (len : ℚ) := by
      apply mul_pos
      · apply div_pos
        · exact_mod_cast hp1
        · norm_num
      · exact_mod_cast hlen
    exact Int.lt_ceil.mpr (by exact_mod_cast hpos)
  · rw [Int.ceil_le]
    push_cast
    have h1 : ((p : ℚ) / 100) ≤ 1 := by
      rw [div_le_one (by norm_num)]
      exact_mod_cast hp2
    calc ((p : ℚ) / 100) * (len : ℚ) ≤ 1 * (len : ℚ) :=
          mul_le_mul_of_nonneg_right h1 (by positivity)
      _ = (len : ℚ) := one_mul _

/-- C8: for the percentiles the code computes (50, 95, 99),
`calculatePercentile` coincides with the spec's formula — the element
at index `ceil((p/100)·length) − 1` of the ascending-sorted list with
the index clamped to `[0, length−1]` (the clamp is inert because the
unclamped index is already in range), 0 for the empty list — and on
[10, 20, 30, 40, 50] it gives p50 = 30 and p95 = 50. -/
theorem percentile_matches_spec_formula :
    (∀ (arr : List ℕ) (p : ℕ), p = 50 ∨ p = 95 ∨ p = 99 →
      (calculatePercentile arr p).1 = some (specPercentile arr p)) ∧
    (calculatePercentile ([] : List ℕ) 50).1 = some 0 ∧
    (calculatePercentile [10, 20, 30, 40, 50] 50).1 = some 30 ∧
    (calculatePercentile [10, 20, 30, 40, 50] 95).1 = some 50 := by
  refine ⟨?_, by with_unfolding_all rfl, by with_unfolding_all rfl,
    by with_unfolding_all rfl⟩
  intro arr p hp
  by_cases harr : arr.length = 0
  · simp [calculatePercentile, specPercentile, harr]
  · have hlen : 1 ≤ arr.length := Nat.one_le_iff_ne_zero.mpr harr
    have hp1 : 1 ≤ p := by rcases hp with h | h | h <;> omega
    have hp2 : p ≤ 100 := by rcases hp with h | h | h <;> omega
    obtain ⟨hI1, hI2⟩ := percentile_ceil_bounds arr.length p hlen hp1 hp2
    have hsl : (arr.mergeSort (· ≤ ·)).length = arr.length :=
      List.length_mergeSort _
    set I : ℤ := ⌈((p : ℚ) / 100) * (arr.length : ℚ)⌉ with hIdef
    have hnonneg : ¬ (I - 1 < 0) := by omega
    have hclamp : min (max (I - 1) 0) ((arr.length : ℤ) - 1) = I - 1 := by
      omega
    have hidx : (I - 1).toNat < (arr.mergeSort (· ≤ ·)).length := by
      rw [hsl]
      omega
    simp only [calculatePercentile, specPercentile, jsSpreadSort, harr,
      if_neg, hsl, ← hIdef, hnonneg, hclamp, ite_false]
    rw [List.getElem?_eq_getElem hidx, List.getD_eq_getElem _ 0 hidx]

/-- C8 (witness): the spec-formula agreement applied at p = 95 on the
latency list [10, 20, 30, 40, 50]. -/
theorem percentile_matches_spec_formula_witness :
    (calculatePercentile [10, 20, 30, 40, 50] 95).1 =
      some (specPercentile [10, 20, 30, 40, 50] 95) :=
  percentile_matches_spec_formula.1 [10, 20, 30, 40, 50] 95 (Or.inr (Or.inl rfl))
